import Mathlib

/-!
Shallow embedding of the 7SIGNAL impact-report generator.

Two variants of the program are modelled, following the two source files:

* `StreamlitApp` embeds `streamlit_app.py` (business-hours report): the
  business-hour window builder, the effective-days computation with its
  range gate, the per-band KPI row computation in `get_kpi_data`, and the
  grouped summary-table aggregation.
* `TotalImpact` embeds `total-impact.py` (days-back report): the `safe_get`
  retry loop and the per-measurement KPI row computation with its
  truthiness guards.

Numeric conventions: Python floats are modelled as exact rationals, and
`round(x, 2)` is modelled as round-half-to-even scaled by 100
(`pyRound2`).  Timestamps are minutes since an arbitrary epoch (`ℤ`);
calendar dates are day indices, with the weekday of day `d` being
`d % 7`.  Python divisions that would raise `ZeroDivisionError` are
modelled through the guarded division `qdiv`, which returns `none`
exactly when the divisor is zero.
-/

/-- Round-half-to-even of a rational to an integer, as Python's builtin
`round` behaves on exact values: take the floor, compare the fractional
part with `1/2`, and break ties toward the even integer. -/
def roundHalfEven (q : ℚ) : ℤ :=
  if q - ⌊q⌋ < 1 / 2 then ⌊q⌋
  else if 1 / 2 < q - ⌊q⌋ then ⌊q⌋ + 1
  else if ⌊q⌋ % 2 = 0 then ⌊q⌋ else ⌊q⌋ + 1

/-- Python's `round(x, 2)` on exact values: round-half-to-even at two
decimal places. -/
def pyRound2 (q : ℚ) : ℚ := (roundHalfEven (q * 100) : ℚ) / 100

/-- Guarded rational division: Python's `/` raises `ZeroDivisionError` on a
zero divisor, modelled here as `none`. -/
def qdiv (a b : ℚ) : Option ℚ := if b = 0 then none else some (a / b)

namespace StreamlitApp

/-- Inputs of the window builder in `streamlit_app.py`: the date range (as
day indices), the selected weekdays (weekday of day `d` is `d % 7`), and
the business-hour interval as minutes after midnight. -/
structure BuilderInput where
  from_date : ℤ
  to_date : ℤ
  selected_days : List ℤ
  business_start : ℤ
  business_end : ℤ
deriving DecidableEq

/-- `from_datetime = eastern.localize(datetime.combine(from_date, business_start))`,
in minutes. -/
def from_datetime (inp : BuilderInput) : ℤ :=
  inp.from_date * 1440 + inp.business_start

/-- `to_datetime = eastern.localize(datetime.combine(to_date, business_end))`,
in minutes. -/
def to_datetime (inp : BuilderInput) : ℤ :=
  inp.to_date * 1440 + inp.business_end

/-- One iteration of the window loop of `streamlit_app.py` (lines 198-217):
for day `d`, if its weekday is selected, build `[d + business_start,
d + business_end]`, clip the start up to `from_datetime` and the end down
to `to_datetime`, and keep the window only if start is strictly before
end. -/
def day_window (inp : BuilderInput) (d : ℤ) : Option (ℤ × ℤ) :=
  if d % 7 ∈ inp.selected_days then
    let start_time0 := d * 1440 + inp.business_start
    let end_time0 := d * 1440 + inp.business_end
    let start_time :=
      if start_time0 < from_datetime inp then from_datetime inp else start_time0
    let end_time :=
      if to_datetime inp < end_time0 then to_datetime inp else end_time0
    if start_time < end_time then some (start_time, end_time) else none
  else none

/-- The list `business_hour_windows` accumulated by the loop over the
calendar dates `from_date, from_date + 1, ..., to_date`. -/
def business_hour_windows (inp : BuilderInput) : List (ℤ × ℤ) :=
  (List.range (inp.to_date - inp.from_date + 1).toNat).filterMap
    (fun i : ℕ => day_window inp (inp.from_date + (i : ℤ)))

/-- `business_hours_per_day`: the span from `business_start` to
`business_end` converted from minutes to hours. -/
def business_hours_per_day (inp : BuilderInput) : ℚ :=
  ((inp.business_end - inp.business_start : ℤ) : ℚ) / 60

/-- `total_business_hours`: the summed duration in hours of the surviving
windows. -/
def total_business_hours (inp : BuilderInput) : ℚ :=
  ((business_hour_windows inp).map (fun w => ((w.2 - w.1 : ℤ) : ℚ) / 60)).sum

/-- `days_back = total_business_hours / business_hours_per_day`: the
effective business days used to normalise per-day metrics. -/
def days_back (inp : BuilderInput) : ℚ :=
  total_business_hours inp / business_hours_per_day inp

/-- The two fatal validation failures of the builder: invalid business
hours configuration (`st.error` at lines 174/181) and invalid date/window
range (`st.error` at lines 189/222/225). -/
inductive BuilderError
  | invalidConfig
  | invalidRange
deriving DecidableEq

/-- The builder's validation pipeline, in the source's order: reject a
non-positive business-hours span, then an inverted date range, then an
effective-days count of zero, then one above 30; otherwise hand the
windows and the effective-days count to the fetch stage. -/
def builder_result (inp : BuilderInput) :
    Except BuilderError (List (ℤ × ℤ) × ℚ) :=
  if business_hours_per_day inp ≤ 0 then .error .invalidConfig
  else if inp.to_date < inp.from_date then .error .invalidRange
  else if days_back inp = 0 then .error .invalidRange
  else if 30 < days_back inp then .error .invalidRange
  else .ok (business_hour_windows inp, days_back inp)

/-- The "Use 24 Hours" checkbox branch (lines 159-161): the business-hour
pair is set to 00:00 and 23:59, i.e. minutes 0 and 1439. -/
def set_use_24_hours (inp : BuilderInput) : BuilderInput :=
  { inp with business_start := 0, business_end := 23 * 60 + 59 }

/-- `crit_samp = round(total_samples * (1 - total_sla / 100), 2)`
(line 274). -/
def crit_samp (total_samples : ℕ) (total_sla : ℚ) : ℚ :=
  pyRound2 ((total_samples : ℚ) * (1 - total_sla / 100))

/-- `crit_mins = crit_samp * (total_mins / total_samples) if total_samples
else 0` (line 275): the division is evaluated only when `total_samples`
is truthy, i.e. nonzero. -/
def crit_mins (total_samples : ℕ) (total_sla total_mins : ℚ) : Option ℚ :=
  if total_samples ≠ 0 then
    (qdiv total_mins (total_samples : ℚ)).map
      (fun r => crit_samp total_samples total_sla * r)
  else some 0

/-- The "Critical Hours Per Day" cell of a result row (line 289):
`round(min(crit_mins / 60 / days_back, business_hours_per_day), 2)`. -/
def critical_hours_per_day (total_samples : ℕ)
    (total_sla total_mins days_back business_hours_per_day : ℚ) : Option ℚ := do
  let cm ← crit_mins total_samples total_sla total_mins
  let h1 ← qdiv cm 60
  let h2 ← qdiv h1 days_back
  pure (pyRound2 (min h2 business_hours_per_day))

/-- The fields of one entry of `results` that the summary aggregation
reads (lines 276-290 and 331-380). -/
structure ResultRow where
  serviceArea : String
  network : String
  band : String
  kpiName : String
  kpiValue : ℚ
  samples : ℚ
  criticalSamples : ℚ
  criticalHoursPerDay : ℚ
deriving DecidableEq

/-- The composite grouping key of `df.groupby` and `pivot_table`:
Service Area, Network, Band. -/
def keyOf (r : ResultRow) : String × String × String :=
  (r.serviceArea, r.network, r.band)

/-- The rows of one group of `df.groupby(["Service Area", "Network",
"Band"])`. -/
def groupRows (rows : List ResultRow) (k : String × String × String) :
    List ResultRow :=
  rows.filter (fun r => decide (keyOf r = k))

/-- Pandas mean of a column: undefined (`NaN`, here `none`) on an empty
selection, otherwise sum over length. -/
def mean (l : List ℚ) : Option ℚ :=
  if l.length = 0 then none else some (l.sum / (l.length : ℚ))

/-- One cell of `pivot_kpi` (lines 345-353) after the final `.round(2)`
and `.fillna(0)` of line 378: the mean of "KPI Value" over the rows of the
group carrying the given KPI name, rounded to two decimals, `0` when the
group has no row for that KPI name. -/
def kpi_value_cell (rows : List ResultRow) (k : String × String × String)
    (name : String) : ℚ :=
  match mean ((rows.filter
      (fun r => decide (keyOf r = k ∧ r.kpiName = name))).map
      (fun r => r.kpiValue)) with
  | none => 0
  | some m => pyRound2 m

/-- One row of the "Summary Sensor Report" pivot: the per-KPI mean cells,
the summed samples, the summed critical samples rounded to a whole number
(`.round(0)` then `astype(int)`), and the mean critical hours per day
rounded to two decimals. -/
structure SummaryGroup where
  kpiCell : String → ℚ
  totalSamples : ℚ
  totalCriticalSamples : ℤ
  avgCriticalHoursPerDay : ℚ

/-- The contents of the summary table as a mapping from group key to the
aggregated row, `none` for keys with no input row.  Grouping, pivoting and
the merges of lines 331-380 are all keyed by (Service Area, Network,
Band), so the mapping determines the rendered table up to its
deterministic final sort. -/
def summary_table (rows : List ResultRow) (k : String × String × String) :
    Option SummaryGroup :=
  if (groupRows rows k).length = 0 then none
  else some
    { kpiCell := fun name => kpi_value_cell rows k name
      totalSamples := ((groupRows rows k).map (fun r => r.samples)).sum
      totalCriticalSamples :=
        roundHalfEven (((groupRows rows k).map (fun r => r.criticalSamples)).sum)
      avgCriticalHoursPerDay :=
        pyRound2 (((groupRows rows k).map (fun r => r.criticalHoursPerDay)).sum /
          ((groupRows rows k).length : ℚ)) }

/-- Outcome of the post-fetch stage (lines 323-442): an empty result list
stops the run with a warning before any aggregation; otherwise the
detailed rows and the summary table are built and exported. -/
inductive ReportOutcome
  | noResultsWarning
  | report (df : List ResultRow)
      (table : String × String × String → Option SummaryGroup)

/-- Whether the run reaches the export / download stage. -/
def ReportOutcome.exportProceeds : ReportOutcome → Bool
  | .noResultsWarning => false
  | .report _ _ => true

/-- `if not results: st.warning(...); st.stop()` followed by the
aggregation and export (lines 323-442). -/
def run_report (rows : List ResultRow) : ReportOutcome :=
  if rows = [] then .noResultsWarning
  else .report rows (summary_table rows)

/-- A concrete input row used to exercise the aggregation theorems. -/
def rowA : ResultRow :=
  ⟨"SA1", "Net1", "5GHz", "KPI_A", 10, 100, 5, 1 / 2⟩

/-- A second concrete input row sharing `rowA`'s group key. -/
def rowB : ResultRow :=
  ⟨"SA1", "Net1", "5GHz", "KPI_B", 20, 50, 2, 1 / 4⟩

end StreamlitApp

namespace TotalImpact

/-- Outcome of one HTTP attempt inside `safe_get` of `total-impact.py`:
a 200 response, a non-200 status, or a transport exception. -/
inductive AttemptOutcome
  | success (body : String)
  | httpError (status : ℕ)
  | transportError
deriving DecidableEq

/-- The `for attempt in range(retries)` loop of `safe_get` (lines 43-53):
`oracle i` is the outcome of the `i`-th HTTP request; a 200 response
returns immediately, any other outcome sleeps for the fixed delay and
moves to the next loop iteration; an exhausted loop returns `None`. -/
def safe_get_loop (oracle : ℕ → AttemptOutcome) : ℕ → ℕ → Option String
  | _, 0 => none
  | i, Nat.succ n =>
    match oracle i with
    | .success b => some b
    | _ => safe_get_loop oracle (i + 1) n

/-- `safe_get(url, headers, retries, delay)`: run the attempt loop from
the first request. -/
def safe_get (oracle : ℕ → AttemptOutcome) (retries : ℕ) : Option String :=
  safe_get_loop oracle 0 retries

/-- Every call site of `safe_get` in `total-impact.py` uses the default
`retries=1`. -/
def safe_get_default (oracle : ℕ → AttemptOutcome) : Option String :=
  safe_get oracle 1

/-- Number of HTTP requests actually issued by the attempt loop. -/
def requests_loop (oracle : ℕ → AttemptOutcome) : ℕ → ℕ → ℕ
  | _, 0 => 0
  | i, Nat.succ n =>
    match oracle i with
    | .success _ => 1
    | _ => 1 + requests_loop oracle (i + 1) n

/-- Number of HTTP requests issued by `safe_get` with the given retry
budget. -/
def requests_made (oracle : ℕ → AttemptOutcome) (retries : ℕ) : ℕ :=
  requests_loop oracle 0 retries

/-- The response guard of `get_kpi_data` (lines 71-72): a failed fetch
(`None`) yields the empty row list; a response body is handed to the
parsing loop. -/
def get_kpi_data_of (resp : Option String) (parse : String → List (ℕ × ℚ)) :
    List (ℕ × ℚ) :=
  match resp with
  | none => []
  | some body => parse body

/-- An attempt oracle whose first request fails with a transport error and
whose every later request would succeed. -/
def failing_then_ok : ℕ → AttemptOutcome :=
  fun i => if i = 0 then .transportError else .success "data"

/-- `critical_samples = round(samples * (1 - sla_value / 100), 2) if
samples and sla_value else None` (line 81): the guard tests the truthiness
of both values, so a zero `samples` or a zero `sla_value` yields `None`. -/
def critical_samples (samples : ℕ) (sla_value : ℚ) : Option ℚ :=
  if samples ≠ 0 ∧ sla_value ≠ 0 then
    some (pyRound2 ((samples : ℚ) * (1 - sla_value / 100)))
  else none

/-- `raw_critical_hours = critical_samples / 60 / days_back if
critical_samples else None` (line 82): again a truthiness guard, so both a
missing and a zero `critical_samples` yield `None`. -/
def raw_critical_hours (samples : ℕ) (sla_value : ℚ) (days_back : ℕ) :
    Option ℚ :=
  match critical_samples samples sla_value with
  | some cs => if cs ≠ 0 then some (cs / 60 / (days_back : ℚ)) else none
  | none => none

/-- `critical_hours_per_day = round(min(raw_critical_hours, 24), 2) if
raw_critical_hours else None` (line 83). -/
def critical_hours_per_day (samples : ℕ) (sla_value : ℚ) (days_back : ℕ) :
    Option ℚ :=
  match raw_critical_hours samples sla_value days_back with
  | some raw => if raw ≠ 0 then some (pyRound2 (min raw 24)) else none
  | none => none

end TotalImpact

/-- `roundHalfEven` never rounds below the floor. -/
theorem le_roundHalfEven (q : ℚ) : ⌊q⌋ ≤ roundHalfEven q := by
  unfold roundHalfEven
  split_ifs <;> omega

/-- `roundHalfEven` never rounds above the ceiling. -/
theorem roundHalfEven_le_add_one (q : ℚ) : roundHalfEven q ≤ ⌊q⌋ + 1 := by
  unfold roundHalfEven
  split_ifs <;> omega

/-- Rounding a nonnegative rational yields a nonnegative integer. -/
theorem roundHalfEven_nonneg {q : ℚ} (h : 0 ≤ q) : 0 ≤ roundHalfEven q := by
  have h1 := le_roundHalfEven q
  have h2 : 0 ≤ ⌊q⌋ := Int.floor_nonneg.mpr h
  omega

/-- Round-half-to-even is monotone. -/
theorem roundHalfEven_mono {q r : ℚ} (h : q ≤ r) :
    roundHalfEven q ≤ roundHalfEven r := by
  rcases lt_or_le ⌊q⌋ ⌊r⌋ with hf | hf
  · calc roundHalfEven q ≤ ⌊q⌋ + 1 := roundHalfEven_le_add_one q
      _ ≤ ⌊r⌋ := by omega
      _ ≤ roundHalfEven r := le_roundHalfEven r
  · have hf2 : ⌊q⌋ = ⌊r⌋ := le_antisymm (Int.floor_le_floor h) hf
    unfold roundHalfEven
    rw [hf2]
    split_ifs <;> first | omega | linarith

/-- Rounding an integer changes nothing. -/
theorem roundHalfEven_intCast (n : ℤ) : roundHalfEven (n : ℚ) = n := by
  unfold roundHalfEven
  norm_num [Int.floor_intCast]

/-- `pyRound2` preserves nonnegativity. -/
theorem pyRound2_nonneg {q : ℚ} (h : 0 ≤ q) : 0 ≤ pyRound2 q := by
  unfold pyRound2
  have h1 : (0 : ℤ) ≤ roundHalfEven (q * 100) :=
    roundHalfEven_nonneg (by positivity)
  have h2 : (0 : ℚ) ≤ (roundHalfEven (q * 100) : ℚ) := by exact_mod_cast h1
  positivity

/-- `pyRound2` is monotone. -/
theorem pyRound2_mono {q r : ℚ} (h : q ≤ r) : pyRound2 q ≤ pyRound2 r := by
  unfold pyRound2
  have h1 : roundHalfEven (q * 100) ≤ roundHalfEven (r * 100) :=
    roundHalfEven_mono (by linarith)
  have h2 : ((roundHalfEven (q * 100) : ℤ) : ℚ) ≤ (roundHalfEven (r * 100) : ℚ) := by
    exact_mod_cast h1
  linarith

/-- Rounding zero gives zero. -/
theorem pyRound2_zero : pyRound2 0 = 0 := by
  norm_num [pyRound2, roundHalfEven]

/-- `pyRound2` fixes integers. -/
theorem pyRound2_intCast (n : ℤ) : pyRound2 (n : ℚ) = n := by
  unfold pyRound2
  rw [show ((n : ℚ) * 100) = ((n * 100 : ℤ) : ℚ) by push_cast; ring,
    roundHalfEven_intCast]
  push_cast
  rw [mul_div_assoc]
  norm_num

namespace StreamlitApp

/-- Any window produced for day `d` starts strictly before it ends, lies
inside the overall queried range, and inside day `d`'s business-hour
interval. -/
theorem day_window_bounds {inp : BuilderInput} {d : ℤ} {w : ℤ × ℤ}
    (h : day_window inp d = some w) :
    w.1 < w.2 ∧ from_datetime inp ≤ w.1 ∧ w.2 ≤ to_datetime inp ∧
      d * 1440 + inp.business_start ≤ w.1 ∧
      w.2 ≤ d * 1440 + inp.business_end := by
  obtain ⟨ws, we⟩ := w
  simp only [day_window, from_datetime, to_datetime] at h
  simp only [from_datetime, to_datetime]
  split_ifs at h <;>
    first
      | exact Option.noConfusion h
      | (simp only [Option.some.injEq, Prod.mk.injEq] at h
         obtain ⟨hs, he⟩ := h
         subst hs
         subst he
         exact ⟨by omega, by omega, by omega, by omega, by omega⟩)

/-- Windows of distinct days are separated: with a nonnegative business
start and a business end before midnight, the earlier day's window ends
strictly before the later day's window starts. -/
theorem day_window_sep {inp : BuilderInput} {d1 d2 : ℤ} {w1 w2 : ℤ × ℤ}
    (hbs : 0 ≤ inp.business_start) (hbe : inp.business_end ≤ 1439)
    (hd : d1 < d2)
    (h1 : day_window inp d1 = some w1) (h2 : day_window inp d2 = some w2) :
    w1.2 < w2.1 := by
  obtain ⟨-, -, -, -, hub⟩ := day_window_bounds h1
  obtain ⟨-, -, -, hlb, -⟩ := day_window_bounds h2
  omega

/-- The summed window durations are nonnegative. -/
theorem total_business_hours_nonneg (inp : BuilderInput) :
    0 ≤ total_business_hours inp := by
  unfold total_business_hours
  apply List.sum_nonneg
  intro x hx
  rw [List.mem_map] at hx
  obtain ⟨w, hw, rfl⟩ := hx
  rw [business_hour_windows, List.mem_filterMap] at hw
  obtain ⟨i, -, hi⟩ := hw
  have h1 := (day_window_bounds hi).1
  have h2 : (0 : ℚ) ≤ ((w.2 - w.1 : ℤ) : ℚ) := by exact_mod_cast (by omega : (0:ℤ) ≤ w.2 - w.1)
  positivity

end StreamlitApp

namespace StreamlitApp

/-- With a nonzero sample count and a nonzero effective-days count, every
guarded division succeeds and the "Critical Hours Per Day" cell is the
rounded, ceiling-clamped formula value. -/
theorem critical_hours_per_day_eq (samples : ℕ) (sla tm db bh : ℚ)
    (hs : samples ≠ 0) (hdb : db ≠ 0) :
    critical_hours_per_day samples sla tm db bh =
      some (pyRound2 (min (crit_samp samples sla * (tm / (samples : ℚ)) / 60 / db) bh)) := by
  have hs2 : ((samples : ℚ)) ≠ 0 := Nat.cast_ne_zero.mpr hs
  simp [critical_hours_per_day, crit_mins, qdiv, hs, hs2, hdb]

/-- With a zero sample count, the guard of line 275 short-circuits the
division and the cell evaluates to zero (given valid later divisors and a
nonnegative ceiling). -/
theorem critical_hours_per_day_zero (sla tm db bh : ℚ)
    (hdb : db ≠ 0) (hbh : 0 ≤ bh) :
    critical_hours_per_day 0 sla tm db bh = some 0 := by
  simp only [critical_hours_per_day, crit_mins, qdiv]
  norm_num [hdb]
  rw [min_eq_left hbh, pyRound2_zero]

end StreamlitApp

open StreamlitApp

/-- C1.  For every measurement row the business-hours aggregator computes
`criticalSamples = round(sampleCount * (1 - slaPercent/100), 2)` and, when
`sampleCount > 0`, `criticalMinutes = criticalSamples *
(windowDurationMinutes / sampleCount)` and `criticalHoursPerDay =
round(min(criticalMinutes / 60 / effectiveDays, dailyCeilingHours), 2)`
(the source applies a final two-decimal rounding that the original claim
omitted); for `sampleCount = 100`, `slaPercent = 90`, window duration 60
minutes, `effectiveDays = 1` the result is `criticalSamples = 10`,
`criticalMinutes = 6`, `criticalHoursPerDay = 0.1`. -/
theorem C1_kpi_formulas :
    (∀ (samples : ℕ) (sla tm db bh : ℚ), samples ≠ 0 → db ≠ 0 →
      critical_hours_per_day samples sla tm db bh =
        some (pyRound2 (min (crit_samp samples sla * (tm / (samples : ℚ)) / 60 / db) bh))) ∧
    crit_samp 100 90 = 10 ∧
    crit_mins 100 90 60 = some 6 ∧
    critical_hours_per_day 100 90 60 1 24 = some (1 / 10) := by
  refine ⟨fun samples sla tm db bh hs hdb => critical_hours_per_day_eq samples sla tm db bh hs hdb, ?_, ?_, ?_⟩
  · norm_num [crit_samp, pyRound2, roundHalfEven]
  · norm_num [crit_mins, crit_samp, qdiv, pyRound2, roundHalfEven]
  · norm_num [critical_hours_per_day, crit_mins, crit_samp, qdiv, pyRound2,
      roundHalfEven, Option.bind]

/-- C1 witness: the formula theorem applied at a concrete row. -/
theorem C1_witness :
    critical_hours_per_day 5 50 10 2 24 =
      some (pyRound2 (min (crit_samp 5 50 * ((10 : ℚ) / (5 : ℕ)) / 60 / 2) 24)) :=
  C1_kpi_formulas.1 5 50 10 2 24 (by norm_num) (by norm_num)

/-- C1 counterexample to the claim as stated: at `sampleCount = 3`,
`slaPercent = 90`, window duration 60 minutes, `effectiveDays = 7`,
ceiling 24, the code produces `0.01`, while the claimed unrounded formula
`min(criticalMinutes/60/effectiveDays, ceiling)` equals `1/70`. -/
theorem C1_counterexample :
    critical_hours_per_day 3 90 60 7 24 = some (1 / 100) ∧
    crit_mins 3 90 60 = some 6 ∧
    min ((6 : ℚ) / 60 / 7) 24 = 1 / 70 ∧
    (1 / 100 : ℚ) ≠ 1 / 70 := by
  refine ⟨?_, ?_, by norm_num, by norm_num⟩
  · have hf : Int.fract ((10 : ℚ) / 7) = 3 / 7 := by
      rw [Int.fract]
      norm_num
    norm_num [critical_hours_per_day, crit_mins, crit_samp, qdiv, pyRound2,
      roundHalfEven, Option.bind, hf]
  · norm_num [crit_mins, crit_samp, qdiv, pyRound2, roundHalfEven]

/-- C4 (amended).  For every measurement row with nonnegative sample count
and SLA percent in `[0, 100]`, under the positivity of `effectiveDays` and
the ceiling guaranteed by the builder, the computed `criticalHoursPerDay`
is defined, nonnegative, and at most `round(dailyCeilingHours, 2)` — the
ceiling itself only up to the final two-decimal rounding, which can lift
the value slightly above a ceiling that is not a multiple of `0.01`. -/
theorem C4_chpd_range (samples : ℕ) (sla tm db bh : ℚ)
    (hsla0 : 0 ≤ sla) (hsla1 : sla ≤ 100) (htm : 0 ≤ tm)
    (hdb : 0 < db) (hbh : 0 < bh) :
    critical_hours_per_day samples sla tm db bh ≠ none ∧
    0 ≤ (critical_hours_per_day samples sla tm db bh).getD 0 ∧
    (critical_hours_per_day samples sla tm db bh).getD 0 ≤ pyRound2 bh := by
  have hcs : 0 ≤ crit_samp samples sla := by
    apply pyRound2_nonneg
    apply mul_nonneg (Nat.cast_nonneg _)
    linarith
  by_cases hs : samples = 0
  · subst hs
    rw [critical_hours_per_day_zero sla tm db bh hdb.ne' hbh.le]
    refine ⟨by simp, by simp, ?_⟩
    simpa using pyRound2_nonneg hbh.le
  · rw [critical_hours_per_day_eq samples sla tm db bh hs hdb.ne']
    have hx : 0 ≤ crit_samp samples sla * (tm / (samples : ℚ)) / 60 / db :=
      div_nonneg
        (div_nonneg (mul_nonneg hcs (div_nonneg htm (Nat.cast_nonneg _)))
          (by norm_num)) hdb.le
    refine ⟨by simp, ?_, ?_⟩
    · simpa using pyRound2_nonneg (le_min hx hbh.le)
    · simpa using pyRound2_mono (min_le_right _ bh)

/-- C4 witness: the range theorem applied at a concrete row. -/
theorem C4_witness :
    critical_hours_per_day 1 0 1 1 24 ≠ none ∧
    0 ≤ (critical_hours_per_day 1 0 1 1 24).getD 0 ∧
    (critical_hours_per_day 1 0 1 1 24).getD 0 ≤ pyRound2 24 :=
  C4_chpd_range 1 0 1 1 24 (by norm_num) (by norm_num) (by norm_num)
    (by norm_num) (by norm_num)

/-- C4 counterexample to the claim as stated: with a one-minute business
day (`dailyCeilingHours = 1/60`), one sample, SLA `0`, a one-minute window
and one effective day, the code emits `0.02`, which exceeds the ceiling
`1/60 ≈ 0.0167`. -/
theorem C4_counterexample :
    critical_hours_per_day 1 0 1 1 (1 / 60) = some (1 / 50) ∧
    ¬((1 / 50 : ℚ) ≤ 1 / 60) := by
  constructor
  · have hf : Int.fract ((5 : ℚ) / 3) = 2 / 3 := by
      rw [Int.fract]
      norm_num
    norm_num [critical_hours_per_day, crit_mins, crit_samp, qdiv, pyRound2,
      roundHalfEven, Option.bind, hf]
  · norm_num

/-- C5 (amended).  For a measurement row with `sampleCount = 0`, the
business-hours variant returns `criticalHoursPerDay = 0` with every
division guarded, while the days-back variant's truthiness guard emits
the missing value `None` for both `Critical Samples` and `Critical Hours
Per Day`; neither variant performs a division by zero. -/
theorem C5_zero_sample_guard (sla tm db bh sla2 : ℚ) (dbn : ℕ)
    (hdb : db ≠ 0) (hbh : 0 ≤ bh) :
    critical_hours_per_day 0 sla tm db bh = some 0 ∧
    TotalImpact.critical_samples 0 sla2 = none ∧
    TotalImpact.critical_hours_per_day 0 sla2 dbn = none := by
  refine ⟨critical_hours_per_day_zero sla tm db bh hdb hbh, ?_, ?_⟩
  · simp [TotalImpact.critical_samples]
  · simp [TotalImpact.critical_hours_per_day, TotalImpact.raw_critical_hours,
      TotalImpact.critical_samples]

/-- C5 witness: the zero-sample guard theorem at concrete inputs. -/
theorem C5_witness :
    critical_hours_per_day 0 50 60 7 10 = some 0 ∧
    TotalImpact.critical_samples 0 50 = none ∧
    TotalImpact.critical_hours_per_day 0 50 7 = none :=
  C5_zero_sample_guard 50 60 7 10 50 7 (by norm_num) (by norm_num)

/-- C5 counterexample to the claim as stated: in the days-back variant a
zero-sample row yields `None`, not `0`. -/
theorem C5_counterexample :
    TotalImpact.critical_hours_per_day 0 50 7 ≠ some 0 ∧
    TotalImpact.critical_hours_per_day 0 50 7 = none := by
  have h : TotalImpact.critical_hours_per_day 0 50 7 = none := by
    simp [TotalImpact.critical_hours_per_day, TotalImpact.raw_critical_hours,
      TotalImpact.critical_samples]
  exact ⟨by simp [h], h⟩

/-- C2.  For every valid input (dates in order, a selected weekday in
range, a time-of-day business pair), the produced windows start strictly
before they end, are fully contained in `[from_datetime, to_datetime]`,
and are strictly increasing and pairwise non-overlapping. -/
theorem C2_windows_sorted (inp : BuilderInput)
    (hrange : inp.from_date ≤ inp.to_date)
    (hbs : 0 ≤ inp.business_start) (hbe : inp.business_end ≤ 1439)
    (hweek : ∃ d : ℤ, inp.from_date ≤ d ∧ d ≤ inp.to_date ∧
      d % 7 ∈ inp.selected_days) :
    (∀ w ∈ business_hour_windows inp,
      w.1 < w.2 ∧ from_datetime inp ≤ w.1 ∧ w.2 ≤ to_datetime inp) ∧
    (business_hour_windows inp).Pairwise
      (fun w1 w2 => w1.1 < w2.1 ∧ w1.2 < w2.2 ∧ w1.2 ≤ w2.1) := by
  constructor
  · intro w hw
    rw [business_hour_windows, List.mem_filterMap] at hw
    obtain ⟨i, -, hi⟩ := hw
    obtain ⟨a, b, c, -, -⟩ := day_window_bounds hi
    exact ⟨a, b, c⟩
  · rw [business_hour_windows]
    refine List.Pairwise.filterMap _ ?_ (List.pairwise_lt_range _)
    intro i j hij w1 hw1 w2 hw2
    rw [Option.mem_def] at hw1 hw2
    have hd : inp.from_date + (i : ℤ) < inp.from_date + (j : ℤ) := by
      omega
    have hsep := day_window_sep hbs hbe hd hw1 hw2
    obtain ⟨l1, -, -, -, -⟩ := day_window_bounds hw1
    obtain ⟨l2, -, -, -, -⟩ := day_window_bounds hw2
    exact ⟨by omega, by omega, le_of_lt hsep⟩

/-- C2 witness: a one-day range whose single window is
`[08:00, 18:00]` on day `0`, contained in the queried range. -/
theorem C2_witness :
    (480 : ℤ) < 1080 ∧
    from_datetime ⟨0, 0, [0], 480, 1080⟩ ≤ 480 ∧
    (1080 : ℤ) ≤ to_datetime ⟨0, 0, [0], 480, 1080⟩ := by
  have h := (C2_windows_sorted ⟨0, 0, [0], 480, 1080⟩ (by decide) (by decide)
    (by decide) ⟨0, by decide, by decide, by decide⟩).1 (480, 1080) (by decide)
  exact ⟨h.1, h.2.1, h.2.2⟩

/-- C3.  An accepted window set always has `0 < effectiveDays ≤ 30`, and
whenever the computed `effectiveDays` is zero or above 30 (given the
already-validated positive business-hours span), the builder stops with
the range error before any fetch. -/
theorem C3_effective_days_gate (inp : BuilderInput) :
    (∀ ws db, builder_result inp = .ok (ws, db) → 0 < db ∧ db ≤ 30) ∧
    (0 < business_hours_per_day inp →
      (days_back inp = 0 ∨ 30 < days_back inp) →
      builder_result inp = .error .invalidRange) := by
  constructor
  · intro ws db hok
    unfold builder_result at hok
    split_ifs at hok with hc hr h0 h30
    simp only [Except.ok.injEq, Prod.mk.injEq] at hok
    obtain ⟨-, hdb⟩ := hok
    subst hdb
    have hpos : 0 < business_hours_per_day inp := lt_of_not_le hc
    have htot : 0 ≤ total_business_hours inp := total_business_hours_nonneg inp
    have hnn : 0 ≤ days_back inp := div_nonneg htot hpos.le
    exact ⟨lt_of_le_of_ne hnn (Ne.symm h0), le_of_not_lt h30⟩
  · intro hpos hbad
    unfold builder_result
    split_ifs with hc hr h0 h30
    · exact absurd hpos (by linarith)
    · rfl
    · rfl
    · rfl
    · rcases hbad with hbad | hbad
      · exact absurd hbad h0
      · exact absurd hbad h30

/-- C3 witness: a one-day range with one selected weekday is accepted with
one effective day; the same range with no selected weekday yields zero
effective days and the range error. -/
theorem C3_witness :
    ((0 : ℚ) < 1 ∧ (1 : ℚ) ≤ 30) ∧
    builder_result ⟨0, 0, [], 480, 1080⟩ = .error .invalidRange := by
  have hw : business_hour_windows ⟨0, 0, [0], 480, 1080⟩ = [(480, 1080)] := by
    decide
  have htot : total_business_hours ⟨0, 0, [0], 480, 1080⟩ = 10 := by
    rw [total_business_hours, hw]
    norm_num
  have hbh : business_hours_per_day ⟨0, 0, [0], 480, 1080⟩ = 10 := by
    norm_num [business_hours_per_day]
  have hdb : days_back ⟨0, 0, [0], 480, 1080⟩ = 1 := by
    rw [days_back, htot, hbh]
    norm_num
  have hok : builder_result ⟨0, 0, [0], 480, 1080⟩ = .ok ([(480, 1080)], 1) := by
    rw [builder_result, hbh, hdb, hw]
    norm_num
  have hwz : business_hour_windows ⟨0, 0, [], 480, 1080⟩ = [] := by
    decide
  have hbz : business_hours_per_day ⟨0, 0, [], 480, 1080⟩ = 10 := by
    norm_num [business_hours_per_day]
  have hdz : days_back ⟨0, 0, [], 480, 1080⟩ = 0 := by
    rw [days_back, total_business_hours, hwz, hbz]
    norm_num
  constructor
  · exact (C3_effective_days_gate ⟨0, 0, [0], 480, 1080⟩).1 [(480, 1080)] 1 hok
  · exact (C3_effective_days_gate ⟨0, 0, [], 480, 1080⟩).2 (by rw [hbz]; norm_num)
      (Or.inl hdz)

/-- Pandas column means are invariant under permutation of the selected
rows. -/
theorem mean_perm {l1 l2 : List ℚ} (h : l1.Perm l2) : mean l1 = mean l2 := by
  simp only [mean, h.length_eq, h.sum_eq]

/-- C6.  Aggregating a permuted row sequence yields an identical summary
table: every cell of the Summary Sensor Report is a group sum or group
mean over the (Service Area, Network, Band) key, so the grouping,
pivoting and summation are order-independent. -/
theorem C6_order_independence (l1 l2 : List ResultRow) (h : l1.Perm l2) :
    summary_table l1 = summary_table l2 := by
  funext k
  have hg : (groupRows l1 k).Perm (groupRows l2 k) := h.filter _
  have hlen : (groupRows l1 k).length = (groupRows l2 k).length := hg.length_eq
  have hsamp : ((groupRows l1 k).map (fun r => r.samples)).sum
      = ((groupRows l2 k).map (fun r => r.samples)).sum := (hg.map _).sum_eq
  have hcrit : ((groupRows l1 k).map (fun r => r.criticalSamples)).sum
      = ((groupRows l2 k).map (fun r => r.criticalSamples)).sum := (hg.map _).sum_eq
  have hchpd : ((groupRows l1 k).map (fun r => r.criticalHoursPerDay)).sum
      = ((groupRows l2 k).map (fun r => r.criticalHoursPerDay)).sum := (hg.map _).sum_eq
  have hcell : (fun name => kpi_value_cell l1 k name)
      = (fun name => kpi_value_cell l2 k name) := by
    funext name
    unfold kpi_value_cell
    rw [mean_perm ((h.filter _).map _)]
  simp only [summary_table, hlen, hsamp, hcrit, hchpd, hcell]

/-- C6 witness: swapping two concrete rows leaves the summary table
unchanged. -/
theorem C6_witness :
    summary_table [rowA, rowB] = summary_table [rowB, rowA] :=
  C6_order_independence [rowA, rowB] [rowB, rowA] (List.Perm.swap rowB rowA [])

/-- C7 (amended).  The "use full day" mode sets the business pair to
00:00 and 23:59, so the `businessHoursPerDay` used both to normalise
`effectiveDays` and as the daily ceiling is the 23-hour-59-minute span
`1439/60 ≈ 23.98` — not `24`. -/
theorem C7_use24_business_hours (inp : BuilderInput) :
    (set_use_24_hours inp).business_start = 0 ∧
    (set_use_24_hours inp).business_end = 1439 ∧
    business_hours_per_day (set_use_24_hours inp) = 1439 / 60 ∧
    days_back (set_use_24_hours inp) =
      total_business_hours (set_use_24_hours inp) / (1439 / 60) := by
  refine ⟨rfl, rfl, ?_, ?_⟩
  · norm_num [business_hours_per_day, set_use_24_hours]
  · rw [days_back]
    norm_num [business_hours_per_day, set_use_24_hours]

/-- C7 counterexample to the claim as stated: in the full-day mode the
normalising span and ceiling equal `1439/60`, which is not `24`. -/
theorem C7_counterexample :
    business_hours_per_day (set_use_24_hours ⟨0, 0, ([0] : List ℤ), 480, 1080⟩)
      = 1439 / 60 ∧
    (1439 / 60 : ℚ) ≠ 24 := by
  constructor
  · norm_num [business_hours_per_day, set_use_24_hours]
  · norm_num

/-- C8 (amended).  An empty fetched-row sequence is not an exception: the
run emits the "no results" warning and stops before aggregation, so no
summary table is built and the export/download stage is never reached;
any non-empty row sequence proceeds to aggregation and export. -/
theorem C8_empty_rows_stop :
    run_report ([] : List ResultRow) = ReportOutcome.noResultsWarning ∧
    (∀ rows : List ResultRow, rows ≠ [] →
      run_report rows = ReportOutcome.report rows (summary_table rows)) := by
  refine ⟨rfl, ?_⟩
  intro rows hr
  rw [run_report, if_neg hr]

/-- C8 witness: a one-row input proceeds to aggregation and export. -/
theorem C8_witness :
    run_report [rowA] = ReportOutcome.report [rowA] (summary_table [rowA]) :=
  C8_empty_rows_stop.2 [rowA] (by simp)

/-- C8 counterexample to the claim as stated: on empty rows the export
does not proceed — the run stops at the warning. -/
theorem C8_counterexample :
    ReportOutcome.exportProceeds (run_report ([] : List ResultRow)) = false ∧
    run_report ([] : List ResultRow) = ReportOutcome.noResultsWarning :=
  ⟨rfl, rfl⟩

/-- C9 (amended).  `safe_get` is called everywhere with the default
`retries=1`, so on a transport failure or non-200 first response exactly
one request is issued — no retry occurs (the fixed delay only sleeps
before returning) — and the call returns `None`, which `get_kpi_data`
absorbs as the empty row list instead of propagating a failure. -/
theorem C9_no_retry (oracle : ℕ → TotalImpact.AttemptOutcome)
    (parse : String → List (ℕ × ℚ))
    (h : ∀ b, oracle 0 ≠ TotalImpact.AttemptOutcome.success b) :
    TotalImpact.safe_get_default oracle = none ∧
    TotalImpact.requests_made oracle 1 = 1 ∧
    TotalImpact.get_kpi_data_of (TotalImpact.safe_get_default oracle) parse
      = [] := by
  have h0 : TotalImpact.safe_get_default oracle = none := by
    rw [TotalImpact.safe_get_default, TotalImpact.safe_get]
    rcases ho : oracle 0 with b | s | _
    · exact absurd ho (h b)
    · simp [TotalImpact.safe_get_loop, ho]
    · simp [TotalImpact.safe_get_loop, ho]
  have h1 : TotalImpact.requests_made oracle 1 = 1 := by
    rw [TotalImpact.requests_made]
    rcases ho : oracle 0 with b | s | _ <;>
      simp [TotalImpact.requests_loop, ho]
  refine ⟨h0, h1, ?_⟩
  rw [h0]
  rfl

/-- C9 witness: the no-retry theorem at the concrete failing oracle. -/
theorem C9_witness :
    TotalImpact.safe_get_default TotalImpact.failing_then_ok = none ∧
    TotalImpact.requests_made TotalImpact.failing_then_ok 1 = 1 ∧
    TotalImpact.get_kpi_data_of
      (TotalImpact.safe_get_default TotalImpact.failing_then_ok)
      (fun _ => []) = [] :=
  C9_no_retry TotalImpact.failing_then_ok (fun _ => [])
    (fun b hb => by simp [TotalImpact.failing_then_ok] at hb)

/-- C9 counterexample to the claim as stated: after a first transport
failure no second request is issued — `safe_get` with the default budget
returns `None` and makes one request, although a genuine retry (budget 2)
against the same oracle would have succeeded. -/
theorem C9_counterexample :
    TotalImpact.safe_get_default TotalImpact.failing_then_ok = none ∧
    TotalImpact.requests_made TotalImpact.failing_then_ok 1 = 1 ∧
    TotalImpact.safe_get TotalImpact.failing_then_ok 2 = some "data" :=
  ⟨rfl, rfl, rfl⟩

/-- C10.  In the days-back variant, a measurement with a positive sample
count but an SLA value of zero percent — every sample critical — emits
`None` for both `Critical Samples` and `Critical Hours Per Day`, because
the guard of line 81 tests the truthiness of `sla_value` rather than its
presence; the unguarded formula would instead have counted every sample
as critical. -/
theorem C10_sla_zero_truthiness (samples : ℕ) (db : ℕ) (h : 0 < samples) :
    TotalImpact.critical_samples samples 0 = none ∧
    TotalImpact.critical_hours_per_day samples 0 db = none ∧
    pyRound2 ((samples : ℚ) * (1 - 0 / 100)) = (samples : ℚ) := by
  have hcs : TotalImpact.critical_samples samples 0 = none := by
    simp [TotalImpact.critical_samples]
  refine ⟨hcs, ?_, ?_⟩
  · simp [TotalImpact.critical_hours_per_day, TotalImpact.raw_critical_hours,
      hcs]
  · have h2 : ((samples : ℚ) * (1 - 0 / 100)) = ((samples : ℤ) : ℚ) := by
      push_cast
      ring
    rw [h2, pyRound2_intCast]
    norm_cast

/-- C10 witness: the truthiness-guard theorem at a concrete measurement. -/
theorem C10_witness :
    TotalImpact.critical_samples 5 0 = none ∧
    TotalImpact.critical_hours_per_day 5 0 7 = none ∧
    pyRound2 ((5 : ℕ) * (1 - 0 / 100)) = ((5 : ℕ) : ℚ) :=
  C10_sla_zero_truthiness 5 7 (by norm_num)

/-- C7 witness: the full-day theorem at a concrete builder input. -/
theorem C7_witness :
    (set_use_24_hours ⟨3, 5, [1, 2], 480, 1080⟩).business_start = 0 ∧
    (set_use_24_hours ⟨3, 5, [1, 2], 480, 1080⟩).business_end = 1439 ∧
    business_hours_per_day (set_use_24_hours ⟨3, 5, [1, 2], 480, 1080⟩)
      = 1439 / 60 ∧
    days_back (set_use_24_hours ⟨3, 5, [1, 2], 480, 1080⟩) =
      total_business_hours (set_use_24_hours ⟨3, 5, [1, 2], 480, 1080⟩)
        / (1439 / 60) :=
  C7_use24_business_hours ⟨3, 5, [1, 2], 480, 1080⟩
